import Mathlib

/-!
# Verification of the AQI sensor-node firmware core

Shallow embedding of the sensor node's core (`src/Receiver.py`, an Arduino
C++ sketch): the PMS5003 binary frame decoder, the sensor acquisition layer,
the composite-AQI engine, the cooperative multi-rate scheduler, the LoRa
telemetry encoder and the SD-card log writer.

Modelling conventions:
* C `float`/`double` arithmetic is modelled by exact rational arithmetic (`ℚ`);
  decimal literals of the source (`0.4`, `35.4`, …) are taken exactly.
* C integer narrowing (`(long)`, `(int)` of a float) truncates toward zero,
  modelled by `truncQ`.  Arduino's `map` performs `long` arithmetic with
  C truncated division, modelled with `Int.tdiv`.
* `unsigned long` wrap-around is modelled by `% 2^32` on `ℕ`; signed `int`
  overflow is modelled by two's-complement wrap-around on `ℤ` (`intWrap`).
* The serial byte stream is a `List ℕ` of byte values consumed from the front;
  `Serial.read()` on an empty stream returns `-1`, which the sketch stores into
  a `uint8_t`, i.e. the byte `0xFF`.
* The stack-allocated 32-byte frame buffer `uint8_t buffer[32]` starts with
  indeterminate content; it is modelled by an explicit `junk : List ℕ`
  parameter holding the 32 initial (unwritten) cell values.
-/

/-- Truncation toward zero of a rational, the semantics of C's
float-to-integer conversion (`(long)x`, `(int)x`): the numerator divided by
the (positive) denominator with C's truncated division. -/
def truncQ (q : ℚ) : ℤ := Int.tdiv q.num q.den

/-- Arduino's `map(x, in_min, in_max, out_min, out_max)`:
`(x - in_min) * (out_max - out_min) / (in_max - in_min) + out_min`
in `long` arithmetic; C division truncates toward zero (`Int.tdiv`). -/
def arduinoMap (x inMin inMax outMin outMax : ℤ) : ℤ :=
  Int.tdiv ((x - inMin) * (outMax - outMin)) (inMax - inMin) + outMin

/-- Two's-complement wrap-around of a 32-bit signed C `int`. -/
def intWrap (z : ℤ) : ℤ := (z + 2147483648) % 4294967296 - 2147483648

/-- Arduino's `round` (half away from zero), used by the telemetry encoder. -/
def arduinoRound (q : ℚ) : ℤ := if 0 ≤ q then truncQ (q + 1/2) else truncQ (q - 1/2)

/-- The `SensorData` struct of the sketch (line 62): one acquisition sample. -/
structure SensorData where
  timestamp : ℕ
  temperature : ℚ
  humidity : ℚ
  pm25 : ℚ
  pm10 : ℚ
  gasLevel : ℤ
  smokeLevel : ℤ
  aqi : ℤ
deriving DecidableEq

/-- The zero-initialized global `currentData` at boot. -/
def initialData : SensorData := ⟨0, 0, 0, 0, 0, 0, 0, 0⟩

/-! ## AQI engine (`calculateAQI`, lines 237–313) -/

/-- The local `pm25_aqi` of `calculateAQI` (lines 239–256): EPA breakpoint
chain on the ×10-scaled concentration, `map` in `long` arithmetic, the top
band clamped at 500.  The float argument `pm25 * 10` is truncated toward zero
by the implicit conversion to `long`. -/
def pm25_aqi (pm25 : ℚ) : ℤ :=
  let x := truncQ (pm25 * 10)
  if pm25 ≤ 12.0 then arduinoMap x 0 120 0 50
  else if pm25 ≤ 35.4 then arduinoMap x 121 354 51 100
  else if pm25 ≤ 55.4 then arduinoMap x 355 554 101 150
  else if pm25 ≤ 150.4 then arduinoMap x 555 1504 151 200
  else if pm25 ≤ 250.4 then arduinoMap x 1505 2504 201 300
  else
    let y := arduinoMap x 2505 5000 301 500
    if y > 500 then 500 else y

/-- The local `pm10_aqi` of `calculateAQI` (lines 259–275). -/
def pm10_aqi (pm10 : ℚ) : ℤ :=
  let x := truncQ pm10
  if pm10 ≤ 54 then arduinoMap x 0 54 0 50
  else if pm10 ≤ 154 then arduinoMap x 55 154 51 100
  else if pm10 ≤ 254 then arduinoMap x 155 254 101 150
  else if pm10 ≤ 354 then arduinoMap x 255 354 151 200
  else if pm10 ≤ 424 then arduinoMap x 355 424 201 300
  else
    let y := arduinoMap x 425 604 301 500
    if y > 500 then 500 else y

/-- Temperature correction factor (lines 281–285). -/
def tempFactor (t : ℚ) : ℚ := if t > 35 then 1.1 else if t < 0 then 1.05 else 1.0

/-- Humidity correction factor (lines 287–289). -/
def humidityFactor (h : ℚ) : ℚ := if h > 80 then 1.05 else 1.0

/-- Gas/smoke contribution (lines 292–293): `map(level, 0, 4095, 0, 50)`
computed in `long` arithmetic, then widened to `float`. -/
def analogFactor (level : ℤ) : ℚ := (arduinoMap level 0 4095 0 50 : ℚ)

/-- The unclamped composite (lines 296–306): weighted sum, environmental
corrections, plus the unconditional environmental-stress bonus. -/
def compositeRaw (d : SensorData) : ℚ :=
  let c := (pm25_aqi d.pm25 : ℚ) * 0.4 + (pm10_aqi d.pm10 : ℚ) * 0.3 +
           analogFactor d.gasLevel * 0.15 + analogFactor d.smokeLevel * 0.05
  let c := c * tempFactor d.temperature * humidityFactor d.humidity
  let envStress := (|d.temperature - 25| + |d.humidity - 50|) / 100
  c + envStress * 10

/-- Bounds checking of `calculateAQI` (lines 309–310): first clamp above at
500, then clamp below at 0, in that order. -/
def clampComposite (q : ℚ) : ℚ :=
  let q1 := if q > 500 then 500 else q
  if q1 < 0 then 0 else q1

/-- `calculateAQI` (lines 237–313): writes the truncated, clamped composite
into the sample's `aqi` field. -/
def calculateAQI (d : SensorData) : SensorData :=
  { d with aqi := truncQ (clampComposite (compositeRaw d)) }

/-! ## Spec-side reference AQI (modelled from spec §4.3's words, for the
refinement claim C1: band tables with piecewise-linear interpolation) -/

/-- Piecewise-linear interpolation of `x` from band `[lo, hi]` onto sub-index
band `[slo, shi]`, with C truncated integer division (spec: "±1 due to
integer truncation"). -/
def bandLerp (x lo hi slo shi : ℤ) : ℤ :=
  Int.tdiv ((x - lo) * (shi - slo)) (hi - lo) + slo

/-- Walk a breakpoint band table: each entry is an upper concentration bound
paired with the (scaled) interpolation band; past the last bound the top band
applies, hard-clamped at 500 (spec §4.3 steps 1–2). -/
def specSubIndex (conc : ℚ) (x : ℤ) : List (ℚ × ℤ × ℤ × ℤ × ℤ) →
    ℤ × ℤ × ℤ × ℤ → ℤ
  | [], (lo, hi, slo, shi) => min (bandLerp x lo hi slo shi) 500
  | (bound, lo, hi, slo, shi) :: rest, top =>
      if conc ≤ bound then bandLerp x lo hi slo shi
      else specSubIndex conc x rest top

/-- Spec §4.3 step 1: the six PM2.5 breakpoint bands (µg/m³ bounds at 12.0,
35.4, 55.4, 150.4, 250.4 and above), interpolated on the ×10-scaled
concentration against ×10-scaled breakpoints. -/
def specPM25Sub (pm25 : ℚ) : ℤ :=
  specSubIndex pm25 (truncQ (pm25 * 10))
    [(12.0, 0, 120, 0, 50), (35.4, 121, 354, 51, 100), (55.4, 355, 554, 101, 150),
     (150.4, 555, 1504, 151, 200), (250.4, 1505, 2504, 201, 300)]
    (2505, 5000, 301, 500)

/-- Spec §4.3 step 2: the six PM10 bands (bounds at 54, 154, 254, 354, 424
and above), unscaled. -/
def specPM10Sub (pm10 : ℚ) : ℤ :=
  specSubIndex pm10 (truncQ pm10)
    [(54, 0, 54, 0, 50), (154, 55, 154, 51, 100), (254, 155, 254, 101, 150),
     (354, 255, 354, 151, 200), (424, 355, 424, 201, 300)]
    (425, 604, 301, 500)

/-- Spec §4.3 step 4: analog channel linearly rescaled from [0, 4095] to
[0, 50] with integer truncation. -/
def specRescale (level : ℤ) : ℚ := (Int.tdiv (level * 50) 4095 : ℚ)

/-- Spec §4.3 steps 3, 5–7: composite `0.40×PM25sub + 0.30×PM10sub +
0.15×gasFactor + 0.05×smokeFactor`, multiplied by both correction factors,
plus the stress bonus `10 × (|temperature−25| + |humidity−50|) / 100`, the
result clamped to [0, 500] and truncated to an integer. -/
def specAQI (d : SensorData) : ℤ :=
  let tf : ℚ := if d.temperature > 35 then 1.10 else if d.temperature < 0 then 1.05 else 1.00
  let hf : ℚ := if d.humidity > 80 then 1.05 else 1.00
  let composite := 0.40 * (specPM25Sub d.pm25 : ℚ) + 0.30 * (specPM10Sub d.pm10 : ℚ) +
                   0.15 * specRescale d.gasLevel + 0.05 * specRescale d.smokeLevel
  let bonus := 10 * (|d.temperature - 25| + |d.humidity - 50|) / 100
  truncQ (max 0 (min (composite * tf * hf + bonus) 500))

/-! ## PMS5003 binary frame decoder (`readPMS5003`, lines 191–234) -/

/-- The sync-scan loop of `readPMS5003` (lines 198–209): pop a byte while the
stream is non-empty; on `0x42`, pop a second byte unconditionally (an empty
stream yields `read() = -1`, stored as the byte `0xFF`, which is not `0x4D`)
and stop successfully only on `0x4D`.  Returns the stream remaining after the
sync pair, or `none` (with the whole stream consumed) if no sync is found. -/
def scanSync : List ℕ → Option (List ℕ)
  | [] => none
  | b1 :: rest =>
      if b1 = 66 then
        match rest with
        | [] => none
        | b2 :: rest2 => if b2 = 77 then some rest2 else scanSync rest2
      else scanSync rest

/-- The frame-fill loop of `readPMS5003` (lines 213–219): copy up to `k`
stream bytes into buffer cells `i, i+1, …`, stopping silently when the
stream drains.  Returns the buffer and the remaining stream. -/
def fillFrom : ℕ → ℕ → List ℕ → List ℕ → List ℕ × List ℕ
  | _, 0, buf, s => (buf, s)
  | _, _ + 1, buf, [] => (buf, [])
  | i, k + 1, buf, b :: rest => fillFrom (i + 1) k (buf.set i b) rest

/-- Result of one `readPMS5003` call: the updated sample, the updated
`static bool firstRead` flag, and the stream left unconsumed. -/
structure PMSResult where
  data : SensorData
  firstRead : Bool
  rest : List ℕ
deriving DecidableEq

/-- `readPMS5003` (lines 191–234).  `junk` is the indeterminate initial
content of the stack buffer `uint8_t buffer[32]`.  With at least 32 bytes
available it scans for sync `0x42 0x4D`, fills buffer cells 2–31 from the
stream (short reads stop silently, leaving `junk` in the unwritten cells),
and unconditionally extracts big-endian PM2.5/PM10 from buffer cells 12–13
and 14–15.  With fewer than 32 bytes available it consumes nothing; the
fields are zeroed if `firstRead` is still set, else left unchanged. -/
def readPMS5003 (stream : List ℕ) (junk : List ℕ) (d : SensorData)
    (firstRead : Bool) : PMSResult :=
  if 32 ≤ stream.length then
    match scanSync stream with
    | none => ⟨d, firstRead, []⟩
    | some afterSync =>
        let buf0 := (junk.set 0 66).set 1 77
        let filled := fillFrom 2 30 buf0 afterSync
        let buf := filled.1
        let pm25v := (buf.getD 12 0) <<< 8 ||| buf.getD 13 0
        let pm10v := (buf.getD 14 0) <<< 8 ||| buf.getD 15 0
        ⟨{ d with pm25 := (pm25v : ℚ), pm10 := (pm10v : ℚ) }, firstRead, filled.2⟩
  else
    if firstRead then ⟨{ d with pm25 := 0, pm10 := 0 }, false, stream⟩
    else ⟨d, firstRead, stream⟩

/-- `true` iff the two-byte sync sequence `0x42 0x4D` occurs (adjacently)
somewhere in the stream. -/
def hasSync : List ℕ → Bool
  | [] => false
  | [_] => false
  | a :: b :: rest => (a = 66 && b = 77) || hasSync (b :: rest)

/-! ## Sensor acquisition (`readAllSensors`, lines 167–188) -/

/-- One cycle's driver inputs: DHT readings (`none` models `NaN`, the
driver's failure sentinel), the particulate serial stream with the frame
buffer's indeterminate initial content, the two raw analog reads, and the
millisecond clock. -/
structure SensorEnv where
  dhtTemp : Option ℚ
  dhtHum : Option ℚ
  pmsStream : List ℕ
  pmsJunk : List ℕ
  gasRead : ℤ
  smokeRead : ℤ
  nowMillis : ℕ

/-- `readAllSensors` (lines 167–188): DHT first (on any `NaN` both fields are
zeroed and a warning is printed, the cycle continues), then the PMS5003
decoder, then the two analog channels, then the timestamp in whole seconds.
Returns the sample, the updated `firstRead` flag and the warning flag. -/
def readAllSensors (env : SensorEnv) (d : SensorData) (firstRead : Bool) :
    SensorData × Bool × Bool :=
  let d1 := match env.dhtTemp, env.dhtHum with
    | some t, some h => { d with temperature := t, humidity := h }
    | _, _ => { d with temperature := 0, humidity := 0 }
  let warn := env.dhtTemp.isNone || env.dhtHum.isNone
  let r := readPMS5003 env.pmsStream env.pmsJunk d1 firstRead
  let d2 := { r.data with gasLevel := env.gasRead, smokeLevel := env.smokeRead,
                          timestamp := env.nowMillis / 1000 }
  (d2, r.firstRead, warn)

/-! ## Cooperative scheduler (`loop`, lines 139–164) -/

/-- `2^32`, the modulus of `unsigned long` on the ESP32. -/
def U32 : ℕ := 4294967296

/-- `currentMillis - lastX` in `unsigned long` arithmetic (wrap-around
subtraction mod `2^32`), for `now, last < U32`. -/
def elapsedU (now last : ℕ) : ℕ := (U32 + now - last) % U32

/-- `SENSOR_READ_INTERVAL` (line 53). -/
def SENSOR_READ_INTERVAL : ℕ := 5000

/-- `LORA_TRANSMIT_INTERVAL` (line 54). -/
def LORA_TRANSMIT_INTERVAL : ℕ := 30000

/-- The scheduler's globals (lines 74–76), all initialized to 0 at boot. -/
structure SchedState where
  lastSensorRead : ℕ
  lastSDWrite : ℕ
  lastLoRaTransmit : ℕ
deriving DecidableEq

/-- Which timed actions one `loop` iteration dispatched. -/
structure FiredActions where
  sample : Bool
  sdWrite : Bool
  transmit : Bool
deriving DecidableEq

/-- One `loop` iteration (lines 139–164) at clock `now`, with the bodies of
the timed actions abstracted to fired flags: the sample block fires when
`now - lastSensorRead ≥ SENSOR_READ_INTERVAL`; nested inside it, the SD write
fires when additionally `now - lastSDWrite ≥ 10000`; independently the
transmit fires when `now - lastLoRaTransmit ≥ LORA_TRANSMIT_INTERVAL`.  Each
fired timer is reset to `now`. -/
def loopStep (now : ℕ) (s : SchedState) : SchedState × FiredActions :=
  let sampleF := decide (SENSOR_READ_INTERVAL ≤ elapsedU now s.lastSensorRead)
  let sdF := sampleF && decide (10000 ≤ elapsedU now s.lastSDWrite)
  let txF := decide (LORA_TRANSMIT_INTERVAL ≤ elapsedU now s.lastLoRaTransmit)
  (⟨if sampleF then now else s.lastSensorRead,
    if sdF then now else s.lastSDWrite,
    if txF then now else s.lastLoRaTransmit⟩,
   ⟨sampleF, sdF, txF⟩)

/-- Scheduler state before check `n` of the idealized run in which the loop
polls `millis()` every 100 ms from boot: check `n` happens at clock
`100 * n`. -/
def schedStateAt : ℕ → SchedState
  | 0 => ⟨0, 0, 0⟩
  | n + 1 => (loopStep (100 * n) (schedStateAt n)).1

/-- Whether the sample action fires at check `n` of the idealized 100 ms run. -/
def sampleFiredAt (n : ℕ) : Bool := ((loopStep (100 * n) (schedStateAt n)).2).sample

/-! ## Telemetry encoder (`transmitData`, lines 356–391) -/

/-- The JSON telemetry message (lines 360–371). -/
structure TelemetryMsg where
  node_id : ℤ
  packet : ℤ
  timestamp : ℕ
  temp : ℚ
  humidity : ℚ
  pm25 : ℚ
  pm10 : ℚ
  gas : ℤ
  smoke : ℤ
  aqi : ℤ
deriving DecidableEq

/-- `round(x * 10) / 10.0` (lines 365–368): round to one decimal. -/
def round1 (q : ℚ) : ℚ := (arduinoRound (q * 10) : ℚ) / 10

/-- `transmitData` (lines 356–391): builds the message from the current
sample and the packet counter (`doc["packet"] = packetCounter++`, a
post-increment: the message carries the old value) and returns the message
together with the new counter.  `packetCounter` is a C `int`; its increment
is modelled with two's-complement wrap-around. -/
def transmitData (d : SensorData) (packetCounter : ℤ) : TelemetryMsg × ℤ :=
  (⟨1, packetCounter, d.timestamp, round1 d.temperature, round1 d.humidity,
    round1 d.pm25, round1 d.pm10, d.gasLevel, d.smokeLevel, d.aqi⟩,
   intWrap (packetCounter + 1))

/-- The packet counter after `n` transmit calls from its boot value 0
(line 77: `int packetCounter = 0`). -/
def counterAfter (d : SensorData) : ℕ → ℤ
  | 0 => 0
  | n + 1 => (transmitData d (counterAfter d n)).2

/-! ## SD-card log (`createCSVHeader` lines 394–405, `writeToSDCard`
lines 407–434, `setup` lines 98–107) -/

/-- One line of `/aqi_data.csv`: the header row or a data row (line
structure abstracted from the comma-separated rendering). -/
inductive CSVLine where
  | header : CSVLine
  | dataRow : SensorData → CSVLine
deriving DecidableEq

/-- The store: `none` while `/aqi_data.csv` does not exist, `some lines`
once it does. -/
def CSVStore : Type := Option (List CSVLine)

/-- `createCSVHeader` (lines 394–405): if the file does not exist, create it
and write the header row; `openOk` models whether `SD.open(FILE_WRITE)`
succeeds (on failure only an error is printed).  An existing file is left
untouched regardless of its content. -/
def createCSVHeader (openOk : Bool) (fs : CSVStore) : CSVStore :=
  match fs with
  | none => if openOk then some [CSVLine.header] else none
  | some l => some l

/-- `writeToSDCard` (lines 407–434): open `/aqi_data.csv` with `FILE_APPEND`
(which creates the file when absent, per the ESP32 FS semantics) and append
one data row; `openOk` models whether the open succeeds (on failure only an
error is printed and nothing is written). -/
def writeToSDCard (openOk : Bool) (d : SensorData) (fs : CSVStore) : CSVStore :=
  if openOk then
    match fs with
    | none => some [CSVLine.dataRow d]
    | some l => some (l ++ [CSVLine.dataRow d])
  else fs

/-- The SD part of `setup` (lines 98–107): `createCSVHeader` runs only when
`SD.begin` succeeded; otherwise only a warning is printed. -/
def setupSDCard (sdBeginOk openOk : Bool) (fs : CSVStore) : CSVStore :=
  if sdBeginOk then createCSVHeader openOk fs else fs

/-- `n` successive successful `writeToSDCard` calls, in call order. -/
def writeN (ds : List SensorData) (fs : CSVStore) : CSVStore :=
  ds.foldl (fun f d => writeToSDCard true d f) fs

/-! ## Helper lemmas -/

lemma truncQ_eq_floor {q : ℚ} (h : 0 ≤ q) : truncQ q = ⌊q⌋ := by
  rw [truncQ, Int.tdiv_eq_ediv (Rat.num_nonneg.mpr h) (Int.ofNat_nonneg q.den),
    Rat.floor_def]

lemma truncQ_nonneg {q : ℚ} (h : 0 ≤ q) : 0 ≤ truncQ q := by
  rw [truncQ_eq_floor h]
  exact Int.floor_nonneg.mpr h

lemma truncQ_le_500 {q : ℚ} (h0 : 0 ≤ q) (h : q ≤ 500) : truncQ q ≤ 500 := by
  rw [truncQ_eq_floor h0]
  calc ⌊q⌋ ≤ ⌊(500 : ℚ)⌋ := Int.floor_le_floor h
    _ = 500 := by norm_num

lemma clampComposite_nonneg (q : ℚ) : 0 ≤ clampComposite q := by
  simp only [clampComposite]
  split_ifs <;> linarith

lemma clampComposite_le_500 (q : ℚ) : clampComposite q ≤ 500 := by
  simp only [clampComposite]
  split_ifs <;> linarith

/-! ## C2 -/

/-- C2: for every sample — any temperature, humidity, PM, gas and smoke
values — the `aqi` field written by `calculateAQI` is an integer in
`[0, 500]`, never negative; the range is preserved by every invocation. -/
theorem calculateAQI_aqi_in_range (d : SensorData) :
    0 ≤ (calculateAQI d).aqi ∧ (calculateAQI d).aqi ≤ 500 := by
  refine ⟨truncQ_nonneg (clampComposite_nonneg _),
    truncQ_le_500 (clampComposite_nonneg _) (clampComposite_le_500 _)⟩

/-! ## C1 -/

lemma min_500_ite (a : ℤ) : min a 500 = if a > 500 then 500 else a := by
  rw [min_def]
  split_ifs <;> omega

lemma specPM25Sub_eq (p : ℚ) : specPM25Sub p = pm25_aqi p := by
  simp only [specPM25Sub, pm25_aqi, specSubIndex, bandLerp, arduinoMap, min_500_ite]

lemma specPM10Sub_eq (p : ℚ) : specPM10Sub p = pm10_aqi p := by
  simp only [specPM10Sub, pm10_aqi, specSubIndex, bandLerp, arduinoMap, min_500_ite]

lemma specRescale_eq (g : ℤ) : specRescale g = analogFactor g := by
  simp only [specRescale, analogFactor, arduinoMap]
  norm_num

lemma clampComposite_eq_max_min (q : ℚ) : clampComposite q = max 0 (min q 500) := by
  simp only [clampComposite, max_def, min_def]
  split_ifs <;> linarith

/-- C1: for every sample the AQI engine computes the index per the spec's
reference algorithm — piecewise-linear PM2.5/PM10 sub-indices over the
published breakpoint bands (PM2.5 interpolated on the ×10-scaled
concentration, top bands clamped at 500), composite `0.40×PM25sub +
0.30×PM10sub + 0.15×gasFactor + 0.05×smokeFactor` multiplied by both
correction factors plus the unconditional environmental-stress bonus — and
in particular `pm25 = 0` gives PM2.5 sub-index 0 and `pm25 = 12.0` gives
PM2.5 sub-index exactly 50 (within the claimed ±1). -/
theorem calculateAQI_refines_spec :
    (∀ d : SensorData, (calculateAQI d).aqi = specAQI d) ∧
    pm25_aqi 0 = 0 ∧ pm25_aqi 12.0 = 50 := by
  refine ⟨fun d => ?_, ?_, ?_⟩
  · simp only [calculateAQI, specAQI, compositeRaw, tempFactor, humidityFactor,
      specPM25Sub_eq, specPM10Sub_eq, specRescale_eq, clampComposite_eq_max_min]
    congr 2
    split_ifs <;> ring_nf
  · norm_num [pm25_aqi, truncQ, arduinoMap]
  · norm_num [pm25_aqi, truncQ, arduinoMap]
    decide

/-! ## C3 -/

lemma scanSync_cons_ne {b : ℕ} (l : List ℕ) (hb : ¬ b = 66) :
    scanSync (b :: l) = scanSync l := by
  cases l <;> simp [scanSync, hb]

lemma scanSync_finds : ∀ (pre post : List ℕ), 66 ∉ pre →
    scanSync (pre ++ 66 :: 77 :: post) = some post := by
  intro pre
  induction pre with
  | nil => intro post _; simp [scanSync]
  | cons b pre' ih =>
      intro post h
      simp only [List.mem_cons, not_or] at h
      rw [List.cons_append, scanSync_cons_ne _ (Ne.symm h.1)]
      exact ih post h.2

lemma hasSync_tail {x : ℕ} {l : List ℕ} (h : hasSync (x :: l) = false) :
    hasSync l = false := by
  cases l with
  | nil => rfl
  | cons y l' =>
      simp only [hasSync, Bool.or_eq_false_iff] at h
      exact h.2

theorem scanSync_none : ∀ (s : List ℕ), hasSync s = false → scanSync s = none
  | [] => fun _ => rfl
  | [b] => fun _ => by
      simp only [scanSync]
      split_ifs <;> rfl
  | a :: b :: rest => fun h => by
      have hab : ¬(a = 66 ∧ b = 77) := by
        intro ⟨ha, hb⟩
        simp [hasSync, ha, hb] at h
      have h2 : hasSync (b :: rest) = false := by
        simp only [hasSync, Bool.or_eq_false_iff] at h
        exact h.2
      have h3 : hasSync rest = false := hasSync_tail h2
      simp only [scanSync]
      split_ifs with h66 h77
      · exact absurd ⟨h66, h77⟩ hab
      · exact scanSync_none rest h3
      · exact scanSync_none (b :: rest) h2

lemma fillFrom_getD_lt : ∀ (k i : ℕ) (buf s : List ℕ) (j : ℕ), j < i →
    (fillFrom i k buf s).1.getD j 0 = buf.getD j 0 := by
  intro k
  induction k with
  | zero => intros; rfl
  | succ k ih =>
      intro i buf s j hj
      cases s with
      | nil => rfl
      | cons b rest =>
          show (fillFrom (i + 1) k (buf.set i b) rest).1.getD j 0 = _
          rw [ih (i + 1) _ rest j (by omega)]
          simp [List.getD_eq_getElem?_getD, List.getElem?_set_ne (by omega : i ≠ j)]

lemma fillFrom_getD : ∀ (k i m : ℕ) (buf s : List ℕ), m < k → m < s.length →
    i + k ≤ buf.length →
    (fillFrom i k buf s).1.getD (i + m) 0 = s.getD m 0 := by
  intro k
  induction k with
  | zero => intro i m buf s hm _ _; exact absurd hm (Nat.not_lt_zero m)
  | succ k ih =>
      intro i m buf s hm hs hlen
      cases s with
      | nil => simp at hs
      | cons b rest =>
          show (fillFrom (i + 1) k (buf.set i b) rest).1.getD (i + m) 0 = _
          cases m with
          | zero =>
              show (fillFrom (i + 1) k (buf.set i b) rest).1.getD i 0 = b
              rw [fillFrom_getD_lt k (i + 1) _ rest i (by omega)]
              simp [List.getD_eq_getElem?_getD,
                List.getElem?_set_self (show i < buf.length by omega)]
          | succ m' =>
              have hi : i + (m' + 1) = (i + 1) + m' := by omega
              rw [hi, ih (i + 1) m' (buf.set i b) rest (by omega) (by simpa using hs)
                (by simp; omega)]
              rfl

lemma lor_byte (a b : ℕ) (hb : b < 256) : a <<< 8 ||| b = 256 * a + b := by
  have h : b < 2 ^ 8 := by omega
  rw [Nat.shiftLeft_eq, mul_comm, ← Nat.mul_add_lt_is_or h a]

lemma getD_lt_of_bytes (l : List ℕ) (n : ℕ) (hn : n < l.length)
    (hb : ∀ b ∈ l, b < 256) : l.getD n 0 < 256 := by
  rw [List.getD_eq_getElem?_getD, List.getElem?_eq_getElem hn]
  exact hb _ (List.getElem_mem hn)

/-- C3 (amended): the decoder is guaranteed to find the sync only when no
`0x42` precedes the sync pair — the scan consumes the byte after every
`0x42` it tests, so a sync pair overlapping a failed test can be missed
(see the counterexample) — and positional extraction of the big-endian
PM2.5/PM10 words at frame offsets 12–13 and 14–15 further needs at least 30
bytes after the sync.  Under those conditions the frame is decoded as
claimed; and any ≥32-byte buffer in which the sync pair occurs nowhere
yields "no frame" (the sample is untouched) and never throws. -/
theorem readPMS5003_decoder_correct :
    (∀ (pre post junk : List ℕ) (d : SensorData) (fr : Bool), 66 ∉ pre →
      30 ≤ post.length → junk.length = 32 → (∀ b ∈ post, b < 256) →
      (readPMS5003 (pre ++ 66 :: 77 :: post) junk d fr).data.pm25 =
        ((256 * post.getD 10 0 + post.getD 11 0 : ℕ) : ℚ) ∧
      (readPMS5003 (pre ++ 66 :: 77 :: post) junk d fr).data.pm10 =
        ((256 * post.getD 12 0 + post.getD 13 0 : ℕ) : ℚ) ∧
      (readPMS5003 (pre ++ 66 :: 77 :: post) junk d fr).firstRead = fr) ∧
    (∀ (s junk : List ℕ) (d : SensorData) (fr : Bool), 32 ≤ s.length →
      hasSync s = false → readPMS5003 s junk d fr = ⟨d, fr, []⟩) := by
  constructor
  · intro pre post junk d fr hpre hpost hjunk hbytes
    have hlen : 32 ≤ (pre ++ 66 :: 77 :: post).length := by
      simp [List.length_append]
      omega
    have hbuf0 : ((junk.set 0 66).set 1 77).length = 32 := by
      simp [hjunk]
    have h12 : (fillFrom 2 30 ((junk.set 0 66).set 1 77) post).1.getD 12 0 =
        post.getD 10 0 :=
      fillFrom_getD 30 2 10 _ post (by omega) (by omega) (by omega)
    have h13 : (fillFrom 2 30 ((junk.set 0 66).set 1 77) post).1.getD 13 0 =
        post.getD 11 0 :=
      fillFrom_getD 30 2 11 _ post (by omega) (by omega) (by omega)
    have h14 : (fillFrom 2 30 ((junk.set 0 66).set 1 77) post).1.getD 14 0 =
        post.getD 12 0 :=
      fillFrom_getD 30 2 12 _ post (by omega) (by omega) (by omega)
    have h15 : (fillFrom 2 30 ((junk.set 0 66).set 1 77) post).1.getD 15 0 =
        post.getD 13 0 :=
      fillFrom_getD 30 2 13 _ post (by omega) (by omega) (by omega)
    simp only [readPMS5003, if_pos hlen, scanSync_finds pre post hpre]
    refine ⟨?_, ?_, trivial⟩
    · simp only [h12, h13]
      rw [lor_byte _ _ (getD_lt_of_bytes post 11 (by omega) hbytes)]
    · simp only [h14, h15]
      rw [lor_byte _ _ (getD_lt_of_bytes post 13 (by omega) hbytes)]
  · intro s junk d fr hlen hsync
    simp only [readPMS5003, if_pos hlen, scanSync_none s hsync]

/-- C3 counterexample: a 32-byte stream in which the sync sequence
`0x42 0x4D` does occur (at offsets 1–2), yet the decoder reports no frame —
the leading `0x42` makes the scan consume the second `0x42` as its candidate
partner, so the sync pair is skipped and the sample is left untouched.  This
refutes "in which the two-byte sync sequence occurs, the decoder … finds the
sync". -/
theorem readPMS5003_misses_overlapping_sync :
    hasSync (66 :: 66 :: 77 :: List.replicate 29 0) = true ∧
    (66 :: 66 :: 77 :: List.replicate 29 0).length = 32 ∧
    (readPMS5003 (66 :: 66 :: 77 :: List.replicate 29 0) (List.replicate 32 0)
        ⟨0, 0, 0, 5, 6, 0, 0, 0⟩ false).data = ⟨0, 0, 0, 5, 6, 0, 0, 0⟩ := by
  refine ⟨rfl, rfl, ?_⟩
  rfl

/-- C3 witness: the amended decoder theorem applied to a concrete 32-byte
stream whose sync pair starts at offset 0 and whose frame bytes 12–15 are
1, 2, 3, 4: the decoded values are the big-endian words 258 and 772, and a
still-set `firstRead` flag is left untouched by the frame path. -/
theorem readPMS5003_decoder_correct_witness :
    (readPMS5003 ([] ++ 66 :: 77 ::
        ([0, 0, 0, 0, 0, 0, 0, 0, 0, 0, 1, 2, 3, 4] ++ List.replicate 16 0))
        (List.replicate 32 0) initialData true).data.pm25 = ((258 : ℕ) : ℚ) ∧
    (readPMS5003 ([] ++ 66 :: 77 ::
        ([0, 0, 0, 0, 0, 0, 0, 0, 0, 0, 1, 2, 3, 4] ++ List.replicate 16 0))
        (List.replicate 32 0) initialData true).data.pm10 = ((772 : ℕ) : ℚ) ∧
    (readPMS5003 ([] ++ 66 :: 77 ::
        ([0, 0, 0, 0, 0, 0, 0, 0, 0, 0, 1, 2, 3, 4] ++ List.replicate 16 0))
        (List.replicate 32 0) initialData true).firstRead = true := by
  have h := readPMS5003_decoder_correct.1 []
    ([0, 0, 0, 0, 0, 0, 0, 0, 0, 0, 1, 2, 3, 4] ++ List.replicate 16 0)
    (List.replicate 32 0) initialData true (by decide) (by decide) (by decide)
    (by decide)
  exact ⟨h.1, h.2.1, h.2.2⟩

/-! ## C4 -/

/-- C4 (amended): whenever fewer than 32 bytes are available the decoder
consumes no input; the sample's `pm25`/`pm10` are retained on every short
window after the first one (`firstRead` already cleared), but on the *first*
short window — which is the very first cycle only if that cycle is already
short — both fields are set to zero and the flag is cleared, even when prior
cycles had decoded valid values (see the counterexample). -/
theorem readPMS5003_short_window :
    (∀ (stream junk : List ℕ) (d : SensorData) (fr : Bool), stream.length < 32 →
      (readPMS5003 stream junk d fr).rest = stream) ∧
    (∀ (stream junk : List ℕ) (d : SensorData), stream.length < 32 →
      readPMS5003 stream junk d false = ⟨d, false, stream⟩) ∧
    (∀ (stream junk : List ℕ) (d : SensorData), stream.length < 32 →
      (readPMS5003 stream junk d true).data.pm25 = 0 ∧
      (readPMS5003 stream junk d true).data.pm10 = 0 ∧
      (readPMS5003 stream junk d true).firstRead = false) := by
  refine ⟨fun stream junk d fr h => ?_, fun stream junk d h => ?_,
    fun stream junk d h => ?_⟩ <;>
    simp only [readPMS5003, if_neg (by omega : ¬ 32 ≤ stream.length)]
  · cases fr <;> rfl
  · rfl
  · exact ⟨rfl, rfl, rfl⟩

/-- C4 counterexample: cycle 1 decodes a valid frame (pm25 = 5, pm10 = 6)
from a full 32-byte stream, leaving `firstRead` still set; cycle 2 sees an
empty stream (< 32 bytes) and — because the `static bool firstRead` is only
cleared by the short-window branch — *zeroes* both fields instead of
retaining the prior cycle's values.  This refutes "set to zero only on the
very first cycle". -/
theorem readPMS5003_zeroes_after_valid_frame :
    (readPMS5003 (66 :: 77 ::
        ([0, 0, 0, 0, 0, 0, 0, 0, 0, 0, 0, 5, 0, 6] ++ List.replicate 16 0))
        (List.replicate 32 0) initialData true).data.pm25 = (5 : ℚ) ∧
    (readPMS5003 []
        (List.replicate 32 0)
        (readPMS5003 (66 :: 77 ::
          ([0, 0, 0, 0, 0, 0, 0, 0, 0, 0, 0, 5, 0, 6] ++ List.replicate 16 0))
          (List.replicate 32 0) initialData true).data
        (readPMS5003 (66 :: 77 ::
          ([0, 0, 0, 0, 0, 0, 0, 0, 0, 0, 0, 5, 0, 6] ++ List.replicate 16 0))
          (List.replicate 32 0) initialData true).firstRead).data.pm25 = (0 : ℚ) ∧
    ¬ ((5 : ℚ) = 0) := by
  refine ⟨by decide, by decide, by decide⟩

/-- C4 witness: the short-window theorem applied at a concrete 10-byte
stream, once with the flag cleared (sample retained, nothing consumed) and
once with it still set (fields zeroed, flag cleared). -/
theorem readPMS5003_short_window_witness :
    (readPMS5003 [1, 2, 3] [] ⟨0, 0, 0, 7, 9, 0, 0, 0⟩ false).rest = [1, 2, 3] ∧
    readPMS5003 [1, 2, 3] [] ⟨0, 0, 0, 7, 9, 0, 0, 0⟩ false =
      ⟨⟨0, 0, 0, 7, 9, 0, 0, 0⟩, false, [1, 2, 3]⟩ ∧
    (readPMS5003 [1, 2, 3] [] ⟨0, 0, 0, 7, 9, 0, 0, 0⟩ true).data.pm25 = 0 :=
  ⟨readPMS5003_short_window.1 [1, 2, 3] [] ⟨0, 0, 0, 7, 9, 0, 0, 0⟩ false (by decide),
   readPMS5003_short_window.2.1 [1, 2, 3] [] ⟨0, 0, 0, 7, 9, 0, 0, 0⟩ (by decide),
   (readPMS5003_short_window.2.2 [1, 2, 3] [] ⟨0, 0, 0, 7, 9, 0, 0, 0⟩ (by decide)).1⟩

/-! ## C9 -/

/-- C9: a 32-byte stream whose sync pair sits at offsets 19–20 leaves only
11 bytes for the 30-byte frame body, so the fill loop stops at buffer cell
12 and cells 13–15 keep their indeterminate initial content — yet the
decoder still assigns `pm25`/`pm10` from cells 12–15: with an all-zero
initial buffer it reports pm25 = 2816, with an all-0xFF one pm25 = 3071 and
pm10 = 65535, and either way the prior sample value (7) is overwritten
rather than the truncated frame being treated as "no frame". -/
theorem readPMS5003_truncated_frame_uses_junk :
    (readPMS5003 (List.replicate 19 0 ++ 66 :: 77 :: [1, 2, 3, 4, 5, 6, 7, 8, 9, 10, 11])
        (List.replicate 32 0) ⟨0, 0, 0, 7, 9, 0, 0, 0⟩ false).data.pm25 = (2816 : ℚ) ∧
    (readPMS5003 (List.replicate 19 0 ++ 66 :: 77 :: [1, 2, 3, 4, 5, 6, 7, 8, 9, 10, 11])
        (List.replicate 32 255) ⟨0, 0, 0, 7, 9, 0, 0, 0⟩ false).data.pm25 = (3071 : ℚ) ∧
    (readPMS5003 (List.replicate 19 0 ++ 66 :: 77 :: [1, 2, 3, 4, 5, 6, 7, 8, 9, 10, 11])
        (List.replicate 32 255) ⟨0, 0, 0, 7, 9, 0, 0, 0⟩ false).data.pm10 = (65535 : ℚ) ∧
    ¬ ((2816 : ℚ) = 3071) ∧ ¬ ((2816 : ℚ) = 7) := by
  refine ⟨by decide, by decide, by decide, by decide, by decide⟩

/-! ## C5 -/

lemma counterAfter_eq_intWrap (d : SensorData) : ∀ n : ℕ, counterAfter d n = intWrap n
  | 0 => by
      show (0 : ℤ) = intWrap 0
      decide
  | n + 1 => by
      show (transmitData d (counterAfter d n)).2 = intWrap (↑(n + 1) : ℤ)
      rw [transmitData, counterAfter_eq_intWrap d n]
      simp only [intWrap]
      push_cast
      omega

/-- C5 (amended): the packet counter starts at 0 at boot and each transmit
call uses it as a post-increment sequence number (the message carries the
old value) and increments it by exactly 1; but it is a *signed* 32-bit
`int`, not unsigned: under two's-complement wrap-around it returns to 0
only after `2^32` transmits, and in between it takes the wrapped
(eventually negative) value `intWrap n`. -/
theorem transmitData_packet_counter :
    (∀ (d : SensorData) (c : ℤ), (transmitData d c).1.packet = c ∧
      (transmitData d c).2 = intWrap (c + 1)) ∧
    (∀ (d : SensorData) (n : ℕ), counterAfter d n = intWrap n) ∧
    (∀ d : SensorData, counterAfter d 0 = 0) ∧
    (∀ d : SensorData, counterAfter d (2 ^ 32) = 0) := by
  refine ⟨fun d c => ⟨rfl, rfl⟩, counterAfter_eq_intWrap, fun d => rfl, fun d => ?_⟩
  rw [counterAfter_eq_intWrap d (2 ^ 32)]
  decide

/-- C5 counterexample: after `2^31` transmit calls the counter's value is
`-2^31 < 0`, refuting "the packet counter is an unsigned integer" (and with
it strict monotonicity of the transmitted sequence numbers): a 32-bit signed
`int` wraps negative halfway through the claimed modulus `W = 2^32`. -/
theorem packetCounter_goes_negative :
    counterAfter initialData (2 ^ 31) = -2147483648 ∧
    counterAfter initialData (2 ^ 31) < 0 := by
  rw [counterAfter_eq_intWrap initialData (2 ^ 31)]
  constructor <;> decide

/-! ## C6 -/

lemma elapsedU_eq {now last : ℕ} (h1 : last ≤ now) (h2 : now < U32) :
    elapsedU now last = now - last := by
  simp only [elapsedU]
  rw [show U32 + now - last = U32 + (now - last) by omega, Nat.add_mod_left]
  exact Nat.mod_eq_of_lt (by omega)

lemma sched_inv : ∀ n : ℕ, 100 * n < U32 →
    (schedStateAt (n + 1)).lastSensorRead = 5000 * (n / 50)
  | 0, _ => by decide
  | n + 1, h => by
      have ih := sched_inv n (by omega)
      have hle : 5000 * (n / 50) ≤ 100 * (n + 1) := by omega
      show (loopStep (100 * (n + 1)) (schedStateAt (n + 1))).1.lastSensorRead = _
      simp only [loopStep, ih, elapsedU_eq hle (by omega : 100 * (n + 1) < U32),
        SENSOR_READ_INTERVAL, decide_eq_true_eq]
      split_ifs with hf
  -- fired: the clock value 100·(n+1) must be the next multiple of 5000
      · omega
  -- not fired: the stored multiple is unchanged
      · omega

lemma sampleFiredAt_iff (n : ℕ) (h : 100 * n < U32) :
    sampleFiredAt n = true ↔ (50 ∣ n ∧ n ≠ 0) := by
  cases n with
  | zero => simp [sampleFiredAt]; decide
  | succ m =>
      have hinv := sched_inv m (by omega)
      have hle : 5000 * (m / 50) ≤ 100 * (m + 1) := by omega
      simp only [sampleFiredAt, loopStep, hinv,
        elapsedU_eq hle (by omega : 100 * (m + 1) < U32), SENSOR_READ_INTERVAL,
        decide_eq_true_eq]
      omega

/-- C6 (amended): each timed action fires at most once per loop check and
firing resets its timer to the current clock, so even when several periods
have elapsed there is a single firing and the next one needs a full period
again (no catch-up bursts); the SD write fires only nested inside a sample
firing.  The sample action fires *at* the multiples of `T_sample` only for
the idealized clock trace that polls every 100 ms from boot at clock 0 (for
an arbitrary trace the first check past a jump fires at whatever clock value
it sees — see the counterexample). -/
theorem loopStep_scheduling :
    (∀ (now now' : ℕ) (s : SchedState),
      ((loopStep now s).2).sample = true →
      ((loopStep now' (loopStep now s).1).2).sample = true →
      SENSOR_READ_INTERVAL ≤ elapsedU now' now) ∧
    (∀ (now now' : ℕ) (s : SchedState),
      ((loopStep now s).2).transmit = true →
      ((loopStep now' (loopStep now s).1).2).transmit = true →
      LORA_TRANSMIT_INTERVAL ≤ elapsedU now' now) ∧
    (∀ (now : ℕ) (s : SchedState),
      ((loopStep now s).2).sdWrite = true → ((loopStep now s).2).sample = true) ∧
    (∀ n : ℕ, 100 * n < U32 → (sampleFiredAt n = true ↔ (50 ∣ n ∧ n ≠ 0))) := by
  refine ⟨fun now now' s h1 h2 => ?_, fun now now' s h1 h2 => ?_,
    fun now s h => ?_, sampleFiredAt_iff⟩
  · simp only [loopStep, decide_eq_true_eq] at h1 h2 ⊢
    simpa [h1] using h2
  · simp only [loopStep, decide_eq_true_eq] at h1 h2 ⊢
    simpa [h1] using h2
  · simp only [loopStep, Bool.and_eq_true, decide_eq_true_eq] at h ⊢
    exact h.1

/-- C6 counterexample: from the boot state (all timers 0) a first check at
clock 7000 fires the sample action although 7000 is not a multiple of
`T_sample = 5000`, refuting "for every clock trace … the sample action fires
at clock values T_sample, 2·T_sample, …". -/
theorem loopStep_fires_off_multiple :
    ((loopStep 7000 ⟨0, 0, 0⟩).2).sample = true ∧ ¬ (5000 ∣ 7000) := by
  constructor <;> decide

/-- C6 witness: a sample firing at clock 5000 from boot state followed by a
firing at clock 10000 is a full period apart, and in the idealized 100 ms
trace the sample action does fire at check 50 (clock 5000). -/
theorem loopStep_scheduling_witness :
    SENSOR_READ_INTERVAL ≤ elapsedU 10000 5000 ∧ sampleFiredAt 50 = true :=
  ⟨loopStep_scheduling.1 5000 10000 ⟨0, 0, 0⟩ (by decide) (by decide),
   (loopStep_scheduling.2.2.2 50 (by decide)).mpr (by decide)⟩

/-! ## C7 -/

lemma writeN_some (ds : List SensorData) : ∀ l : List CSVLine,
    writeN ds (some l) = some (l ++ ds.map CSVLine.dataRow) := by
  induction ds with
  | nil => intro l; simp [writeN]
  | cons d ds ih =>
      intro l
      show writeN ds (writeToSDCard true d (some l)) = _
      rw [writeToSDCard]
      simp only [if_pos trivial]
      rw [ih (l ++ [CSVLine.dataRow d])]
      simp

/-- C7: starting from an initially-absent store, the boot-time header
creation followed by N successful data appends yields exactly one header
line followed by the N data rows in call order; and when the store already
exists, the header writer leaves it untouched regardless of its content. -/
theorem logWriter_one_header_then_rows :
    (∀ ds : List SensorData,
      writeN ds (createCSVHeader true none) =
        some (CSVLine.header :: ds.map CSVLine.dataRow)) ∧
    (∀ l : List CSVLine, createCSVHeader true (some l) = some l) := by
  refine ⟨fun ds => ?_, fun l => rfl⟩
  show writeN ds (some [CSVLine.header]) = _
  rw [writeN_some]
  simp

/-! ## C10 -/

/-- C10: the header row is written only by the boot-time initialization (and
only when storage init succeeded); a data append that runs while the store
is absent creates the store containing data rows and no header, so the
one-header guarantee holds only when the store can be created at boot. -/
theorem writeToSDCard_creates_headerless :
    (∀ (d : SensorData) (ds : List SensorData),
      writeN (d :: ds) none =
        some (CSVLine.dataRow d :: ds.map CSVLine.dataRow)) ∧
    (∀ (d : SensorData) (ds : List SensorData),
      CSVLine.header ∉ (CSVLine.dataRow d :: ds.map CSVLine.dataRow)) ∧
    (∀ fs : CSVStore, setupSDCard false true fs = fs) ∧
    setupSDCard true true none = some [CSVLine.header] := by
  refine ⟨fun d ds => ?_, fun d ds => ?_, fun fs => rfl, rfl⟩
  · show writeN ds (writeToSDCard true d none) = _
    rw [writeToSDCard]
    simp only [if_pos trivial]
    rw [writeN_some]
    simp
  · simp [List.mem_cons, List.mem_map]

/-! ## C8 -/

lemma readPMS5003_temperature (stream junk : List ℕ) (d : SensorData)
    (fr : Bool) : (readPMS5003 stream junk d fr).data.temperature = d.temperature := by
  unfold readPMS5003
  split_ifs with h1 h2
  · rcases h3 : scanSync stream with _ | rest <;> simp only [h3]
  · rfl
  · rfl

lemma readPMS5003_humidity (stream junk : List ℕ) (d : SensorData)
    (fr : Bool) : (readPMS5003 stream junk d fr).data.humidity = d.humidity := by
  unfold readPMS5003
  split_ifs with h1 h2
  · rcases h3 : scanSync stream with _ | rest <;> simp only [h3]
  · rfl
  · rfl

/-- C8: whenever the temperature or the humidity read reports an invalid
value (`NaN`, modelled as `none`), both fields are substituted with `0.0`
and the warning is raised, while the acquisition cycle continues: the
particulate decoder still runs, the analog channels and the timestamp are
still read, and the cycle never aborts. -/
theorem readAllSensors_dht_failure (env : SensorEnv) (d : SensorData)
    (fr : Bool) (h : env.dhtTemp = none ∨ env.dhtHum = none) :
    (readAllSensors env d fr).1.temperature = 0 ∧
    (readAllSensors env d fr).1.humidity = 0 ∧
    (readAllSensors env d fr).2.2 = true ∧
    (readAllSensors env d fr).1.gasLevel = env.gasRead ∧
    (readAllSensors env d fr).1.smokeLevel = env.smokeRead ∧
    (readAllSensors env d fr).1.timestamp = env.nowMillis / 1000 ∧
    (readAllSensors env d fr).1.pm25 =
      (readPMS5003 env.pmsStream env.pmsJunk
        { d with temperature := 0, humidity := 0 } fr).data.pm25 ∧
    (readAllSensors env d fr).1.pm10 =
      (readPMS5003 env.pmsStream env.pmsJunk
        { d with temperature := 0, humidity := 0 } fr).data.pm10 ∧
    (readAllSensors env d fr).2.1 =
      (readPMS5003 env.pmsStream env.pmsJunk
        { d with temperature := 0, humidity := 0 } fr).firstRead := by
  rcases h with h | h
  · cases hh : env.dhtHum <;>
      simp [readAllSensors, h, hh, readPMS5003_temperature, readPMS5003_humidity]
  · cases ht : env.dhtTemp <;>
      simp [readAllSensors, h, ht, readPMS5003_temperature, readPMS5003_humidity]

/-- C8 witness: a concrete cycle whose temperature read fails — both fields
are zeroed, the warning is raised, and the analog channels and the (whole
second) timestamp are still acquired. -/
theorem readAllSensors_dht_failure_witness :
    (readAllSensors ⟨none, some 40, [], [], 123, 456, 9500⟩ initialData true).1.temperature = 0 ∧
    (readAllSensors ⟨none, some 40, [], [], 123, 456, 9500⟩ initialData true).1.humidity = 0 ∧
    (readAllSensors ⟨none, some 40, [], [], 123, 456, 9500⟩ initialData true).2.2 = true ∧
    (readAllSensors ⟨none, some 40, [], [], 123, 456, 9500⟩ initialData true).1.gasLevel = 123 ∧
    (readAllSensors ⟨none, some 40, [], [], 123, 456, 9500⟩ initialData true).1.timestamp = 9 := by
  have h := readAllSensors_dht_failure ⟨none, some 40, [], [], 123, 456, 9500⟩
    initialData true (Or.inl rfl)
  exact ⟨h.1, h.2.1, h.2.2.1, h.2.2.2.1, h.2.2.2.2.2.1.trans rfl⟩
